import Mathlib

/-!
Verification of the resilient call-orchestration layer of the
COD-DeepSeek-V3.1 repository: connection cache, RAG pipeline,
resilient proxy, streaming relay.
-/

/-- Events written to the streaming sink by the streaming relay
(src/api/streaming-proxy.js): a forwarded data frame, a done:true frame,
or an error frame. -/
inductive Ev where
  | data (payload : List Char)
  | done
  | error (msg : List Char)
deriving DecidableEq, Repr

/-- The SSE line tag "data: " that the relay filters on
(line.startsWith in src/api/streaming-proxy.js line 137). -/
def dataMark : List Char := ['d', 'a', 't', 'a', ':', ' ']

/-- The end-of-stream sentinel payload "[DONE]"
(src/api/streaming-proxy.js line 141). -/
def doneMark : List Char := ['[', 'D', 'O', 'N', 'E', ']']

/-- Events emitted for one complete line (src/api/streaming-proxy.js
lines 136-151): lines starting with "data: " are unwrapped; the sentinel
becomes a done frame, any other payload is forwarded verbatim. -/
def lineEvent (line : List Char) : List Ev :=
  if dataMark.isPrefixOf line then
    let payload := line.drop 6
    if payload = doneMark then [Ev.done] else [Ev.data payload]
  else []

/-- Events for a list of complete lines, in order. -/
def lineEvents (ls : List (List Char)) : List Ev := (ls.map lineEvent).flatten

/-- The buffer split of src/api/streaming-proxy.js lines 133-134:
buffer.split on newline, with the trailing fragment popped back into the
buffer. Returns (complete lines, trailing fragment). -/
def splitLines : List Char → List (List Char) × List Char
  | [] => ([], [])
  | c :: cs =>
    if c = '\n' then ([] :: (splitLines cs).1, (splitLines cs).2)
    else
      match splitLines cs with
      | ([], r) => ([], c :: r)
      | (l :: ls, r) => ((c :: l) :: ls, r)

/-- The chunk loop of src/api/streaming-proxy.js lines 124-153: each chunk
is appended to the buffer, complete lines are processed, the trailing
fragment is retained; the leftover buffer is dropped when the reader ends. -/
def relayChunks : List Char → List (List Char) → List Ev
  | _, [] => []
  | buf, c :: cs =>
    lineEvents (splitLines (buf ++ c)).1 ++
      relayChunks (splitLines (buf ++ c)).2 cs

/-- Full relay output for a successful upstream response: the processed
chunks followed by the unconditional final done frame
(src/api/streaming-proxy.js line 156). -/
def relayOutput (chunks : List (List Char)) : List Ev :=
  relayChunks [] chunks ++ [Ev.done]

/-- The streaming handler sink traffic: on a non-success upstream response
a single error frame (src/api/streaming-proxy.js line 113), otherwise the
relay output. -/
def streamingSink (respSuccess : Bool) (errMsg : List Char)
    (chunks : List (List Char)) : List Ev :=
  if respSuccess then relayOutput chunks else [Ev.error errMsg]

/-! ## Resilient proxy retry loop
(src/netlify/functions/api-proxy.js lines 128-187 and src/unnamed/part_004
lines 160-215). -/

/-- response.ok of the fetch API: status in 200..299. -/
def respSuccess (status : Nat) : Bool := 200 ≤ status && status < 300

/-- Retryable statuses in the netlify functions variant
(src/netlify/functions/api-proxy.js line 160): 502 and 503. -/
def retryableFns (s : Nat) : Bool := s == 502 || s == 503

/-- Retryable statuses in the part_004 variant
(src/unnamed/part_004 line 199): 502 only. -/
def retryable502 (s : Nat) : Bool := s == 502

/-- The retry loop shared by both cited variants: `retries` starts at 3;
each iteration fetches the next upstream status; a retryable status
decrements `retries` and sleeps `(4 - retries) * 2000` milliseconds; any
other status breaks the loop. Returns (attempts made, backoff delays slept,
index of the last attempt if any). `status i` is the upstream status of
attempt `i`. -/
def retryLoop (retryable : Nat → Bool) (status : Nat → Nat) :
    Nat → Nat → Nat × List Nat × Option Nat
  | _, 0 => (0, [], none)
  | idx, r + 1 =>
    if retryable (status idx) then
      let rest := retryLoop retryable status (idx + 1) r
      (rest.1 + 1, (4 - r) * 2000 :: rest.2.1, some (rest.2.2.getD idx))
    else (1, [], some idx)

/-- The proxy handler outcome after the retry loop
(src/netlify/functions/api-proxy.js lines 184-251): no response at all is
an internal 500; a non-ok final response is returned with the upstream
status code and a composed error body; an ok final response is returned as
status 200 with the upstream body. `upstream i` is (status, body) of
attempt `i`. -/
def proxyHandler (retryable : Nat → Bool) (upstream : Nat → Nat × String) :
    Nat × String :=
  match (retryLoop retryable (fun i => (upstream i).1) 0 3).2.2 with
  | none => (500, "Failed to get response from DeepSeek API after multiple attempts")
  | some idx =>
    if respSuccess (upstream idx).1 then (200, (upstream idx).2)
    else ((upstream idx).1, "upstream error body")

/-- Upstream scenario [502, 502, 200] (spec's first Resilient Proxy case). -/
def up502x2then200 : Nat → Nat × String :=
  fun i => if i < 2 then (502, "bad gateway") else (200, "final body")

/-- Upstream scenario [502, 502, 502, ...] (spec's exhaustion case). -/
def up502always : Nat → Nat × String := fun _ => (502, "bad gateway")

/-! ## max_tokens normalization (three cited variants). -/

/-- The clamp Math.min(Math.max(1, t), 8192) shared by all three variants. -/
def clampTokens (t : Nat) : Nat := min (max 1 t) 8192

/-- src/netlify/functions/api-proxy.js lines 87-97: default 4096 when
max_tokens is undefined; otherwise clamp into [1, 8192]. -/
def validatedFns : Option Nat → Nat
  | none => 4096
  | some t => clampTokens t

/-- JavaScript `t || 4096`: undefined and 0 are falsy and yield the
default. -/
def jsOrNat : Option Nat → Nat
  | none => 4096
  | some 0 => 4096
  | some t => t

/-- src/api/streaming-proxy.js lines 38-40: `req.body.max_tokens || 4096`
then clamp. An input of 0 is falsy and becomes the 4096 default. -/
def validatedStream (t : Option Nat) : Nat := clampTokens (jsOrNat t)

/-- src/netlify/edge-functions/api-proxy.js lines 77-79: identical
`requestBody.max_tokens || 4096` then clamp. -/
def validatedEdge (t : Option Nat) : Nat := clampTokens (jsOrNat t)

/-! ## RAG pipeline (src/unnamed/part_000). -/

/-- A document returned by the vector search projection
(src/unnamed/part_000 lines 244-252); any field may be missing. The
response text is modelled as a character list; the relevance score as an
integer stand-in for the store's numeric score. -/
structure Doc where
  instruction : Option String
  context : Option String
  response : Option (List Char)
  score : Option Int
deriving DecidableEq, Repr

/-- The three-character ellipsis marker appended on truncation. -/
def ellipsisMark : List Char := ['.', '.', '.']

/-- The response truncation of src/unnamed/part_000 lines 348-350:
`doc.response ? (doc.response.substring(0, 200) + (doc.response.length >
200 ? ... : )) : empty`. A missing or empty (falsy) response maps to the
empty string. -/
def truncResp : Option (List Char) → List Char
  | none => []
  | some r =>
    if r = [] then []
    else r.take 200 ++ (if 200 < r.length then ellipsisMark else [])

/-- One element of the `sources` array in the part_000 response
(lines 346-353). -/
structure Source where
  instruction : String
  response : List Char
  context : String
  score : Int
deriving DecidableEq, Repr

/-- The per-document source mapping of src/unnamed/part_000 lines 346-353:
missing fields default, the response is truncated. -/
def mkSource (d : Doc) : Source :=
  { instruction := d.instruction.getD ""
    response := truncResp d.response
    context := d.context.getD ""
    score := d.score.getD 0 }

/-- The externally visible pipeline stages of the part_000 handler, in the
order the code performs them. -/
inductive StageEvent where
  | connAttempt
  | embedCall
  | searchCall
  | llmCall
deriving DecidableEq, Repr

/-- Outcomes of the external collaborators consulted by one request: the
MongoDB connect race (Step 1), the embedding call (Step 2), the vector
search race (Step 3), and the LLM call race (Step 5). -/
structure RagOracle where
  connectOk : Bool
  embedOk : Bool
  embedErr : String
  searchOk : Bool
  docs : List Doc
  llmOk : Bool
  llmAnswer : String
  llmErr : String
deriving Repr

/-- The JSON body and status the handler sends back. -/
structure RagResponse where
  status : Nat
  answer : String
  sources : List Source
  fallback : Bool
  error : Option String
deriving Repr

/-- The templated fallback answer of src/unnamed/part_000 lines 80-86,
referencing the original query text. -/
def fallbackAnswer (query : String) : String :=
  "I'm unable to search the knowledge base at the moment due to a database connection issue. I'll answer based on my general knowledge instead.\n\nYour question was: \"" ++
    query ++ "\""

/-- The part_000 request handler (lines 88-385) from the point where
credentials are present, as a function of the query and the collaborator
outcomes. Returns the response together with the trace of external stages
performed, in order: Step 1 connects to MongoDB (5s timeout race; failure
just sets the fallback flag), Step 2 creates the embedding (failure
responds immediately with the templated fallback), Step 3 runs the vector
search only if Step 1 succeeded (failure empties the results and sets the
flag), Step 5 calls the LLM (failure responds with the templated fallback
but keeps the already retrieved sources). -/
def ragHandler (query : String) (o : RagOracle) : RagResponse × List StageEvent :=
  if query = "" then
    ({ status := 400, answer := "", sources := [], fallback := false,
       error := some "Missing query parameter" }, [])
  else
    -- Step 1: MongoDB connect raced against the 5 second timer
    let fallback1 := !o.connectOk
    -- Step 2: embedding
    if !o.embedOk then
      ({ status := 200, answer := fallbackAnswer query, sources := [],
         fallback := true,
         error := some ("Embedding failed: " ++ o.embedErr) },
       [StageEvent.connAttempt, StageEvent.embedCall])
    else
      -- Step 3: vector search, only when still connected
      let step3 : List Doc × Bool × List StageEvent :=
        if fallback1 then ([], true, [StageEvent.connAttempt, StageEvent.embedCall])
        else if o.searchOk then
          (o.docs, false,
           [StageEvent.connAttempt, StageEvent.embedCall, StageEvent.searchCall])
        else
          ([], true,
           [StageEvent.connAttempt, StageEvent.embedCall, StageEvent.searchCall])
      -- Step 5: LLM call
      if o.llmOk then
        ({ status := 200, answer := o.llmAnswer,
           sources := step3.1.map mkSource, fallback := step3.2.1,
           error := none }, step3.2.2 ++ [StageEvent.llmCall])
      else
        ({ status := 200, answer := fallbackAnswer query,
           sources := step3.1.map mkSource, fallback := true,
           error := some ("LLM API error: " ++ o.llmErr) },
         step3.2.2 ++ [StageEvent.llmCall])

/-- A fully successful collaborator outcome with one retrieved document,
for concrete runs. -/
def okOracle : RagOracle :=
  { connectOk := true, embedOk := true, embedErr := "", searchOk := true
    docs := [{ instruction := some "capital of France"
               context := some "geography"
               response := some "Paris is the capital.".toList
               score := some 1 }]
    llmOk := true, llmAnswer := "Paris", llmErr := "" }

/-! ## API key resolution (claim about missing credentials). -/

/-- JavaScript falsiness for an optional string: absent or empty. -/
def falsyS : Option String → Bool
  | none => true
  | some s => s = ""

/-- JavaScript `a || b` on optional strings. -/
def jsOrS (a b : Option String) : Option String := if falsyS a then b else a

/-- How far a proxy handler gets before any upstream call: a configuration
error response, or proceeding to the upstream fetch with a resolved key. -/
inductive ProxyStart where
  | configError (status : Nat)
  | proceeds (apiKey : String)
deriving DecidableEq, Repr

/-- src/netlify/functions/api-proxy.js lines 33-49: key from DEEPSEEKAPI
or DEEPSEEK_API_KEY; when falsy, respond 500 before any upstream call.
The edge variant (src/netlify/edge-functions/api-proxy.js lines 33-49)
resolves identically. -/
def startFns (envA envB : Option String) : ProxyStart :=
  match jsOrS envA envB with
  | none => ProxyStart.configError 500
  | some s => if s = "" then ProxyStart.configError 500 else ProxyStart.proceeds s

/-- src/api/streaming-proxy.js lines 22-30 (also src/api/rag.js lines
50-62): a single environment key; when falsy, respond 500 before any
upstream call. -/
def startStream (env : Option String) : ProxyStart :=
  match env with
  | none => ProxyStart.configError 500
  | some s => if s = "" then ProxyStart.configError 500 else ProxyStart.proceeds s

/-- src/unnamed/part_004 lines 41-58: key from DEEPSEEKAPI or
DEEPSEEK_API_KEY, or else the hardcoded literal written into the source;
only a falsy result responds 500. -/
def startPart004 (envA envB : Option String) : ProxyStart :=
  match jsOrS (jsOrS envA envB) (some "sk-fbbeed48dde046d5812669b237080836") with
  | none => ProxyStart.configError 500
  | some s => if s = "" then ProxyStart.configError 500 else ProxyStart.proceeds s

/-- Whether the handler goes on to call upstream. -/
def upstreamCalled : ProxyStart → Bool
  | ProxyStart.proceeds _ => true
  | ProxyStart.configError _ => false

/-! ## Connection cache (claim C1).
Two variants exist: src/unnamed/part_000 lines 10-62 (promise
deduplication with failure reset) and src/api/rag.js lines 8-23 (plain
cachedDb check, no deduplication). JavaScript promise execution is
single-threaded and cooperative, so concurrent calls are modelled as a
deterministic sequence of call issuances followed by the delivery of the
pending connection outcome; continuations run in attachment order. -/

/-- What one `connectToDatabase` call is doing after running to its first
suspension: it initiated attempt `a` and awaits it, it awaits an attempt
`a` initiated by an earlier call, or it returned the cached handle. -/
inductive CallWait where
  | initiator (attempt : Nat)
  | waiterOn (attempt : Nat)
  | cached (h : Nat)
deriving DecidableEq, Repr

/-- The final result one call delivers to its caller once the pending
attempt settles: the handle, the propagated connection error, or (for a
part_000 waiter whose awaited attempt failed) a silently started fresh
attempt. -/
inductive CallResult where
  | handle (h : Nat)
  | error
  | retrying (newAttempt : Nat)
deriving DecidableEq, Repr

/-- The module-level mutable state of src/unnamed/part_000 lines 6-8:
connectionPromise, cachedDb, cachedClient (each an attempt id or handle),
plus a counter of connection attempts started so far. -/
structure PoolState where
  connectionPromise : Option Nat
  cachedDb : Option Nat
  cachedClient : Option Nat
  attemptsStarted : Nat
deriving DecidableEq, Repr

/-- Fresh process state. -/
def initPool : PoolState := ⟨none, none, none, 0⟩

/-- One part_000 `connectToDatabase` call running to its first suspension
(lines 10-62): an in-flight promise is awaited; else a cached handle is
returned; else a new attempt is started and its promise stored. -/
def issuePooled (s : PoolState) : PoolState × CallWait :=
  match s.connectionPromise with
  | some p => (s, CallWait.waiterOn p)
  | none =>
    match s.cachedDb with
    | some d => (s, CallWait.cached d)
    | none =>
      ({ s with connectionPromise := some s.attemptsStarted,
                attemptsStarted := s.attemptsStarted + 1 },
       CallWait.initiator s.attemptsStarted)

/-- N calls issued back to back before any connection outcome arrives. -/
def issuePooledN : Nat → PoolState → PoolState × List CallWait
  | 0, s => (s, [])
  | n + 1, s =>
    ((issuePooledN n (issuePooled s).1).1,
     (issuePooled s).2 :: (issuePooledN n (issuePooled s).1).2)

/-- Success of the pending attempt with handle `h`: the executor caches
the client and db (lines 49-50) and resolves, so every awaiting call gets
`h` and a cached call keeps its handle. -/
def resultOnSuccess (h : Nat) : CallWait → CallResult
  | CallWait.cached d => CallResult.handle d
  | _ => CallResult.handle h

/-- A part_000 waiter resuming after its awaited promise rejected
(lines 13-20 then 24-61): the catch clears connectionPromise, cachedDb and
cachedClient, execution falls through, and — cachedDb being null — a fresh
attempt is started and its promise stored. -/
def recoverWaiter (s : PoolState) : PoolState × CallResult :=
  ({ connectionPromise := some s.attemptsStarted
     cachedDb := none
     cachedClient := none
     attemptsStarted := s.attemptsStarted + 1 },
   CallResult.retrying s.attemptsStarted)

/-- Rejection continuations running in attachment order: the initiator
propagates the error to its caller; each waiter recovers and starts a
fresh attempt; a cached call is unaffected. -/
def failWaiters : PoolState → List CallWait → PoolState × List CallResult
  | s, [] => (s, [])
  | s, CallWait.initiator _ :: ws =>
    ((failWaiters s ws).1, CallResult.error :: (failWaiters s ws).2)
  | s, CallWait.waiterOn _ :: ws =>
    ((failWaiters (recoverWaiter s).1 ws).1,
     (recoverWaiter s).2 :: (failWaiters (recoverWaiter s).1 ws).2)
  | s, CallWait.cached d :: ws =>
    ((failWaiters s ws).1, CallResult.handle d :: (failWaiters s ws).2)

/-- Failure of the pending attempt: the executor catch clears
connectionPromise (line 56) and rejects, then the attached continuations
run in order. -/
def deliverFailure (s : PoolState) (ws : List CallWait) :
    PoolState × List CallResult :=
  failWaiters { s with connectionPromise := none } ws

/-- The module-level state of src/api/rag.js lines 6-23: only cachedDb,
plus the attempt counter. -/
structure SimpleCache where
  cachedDb : Option Nat
  attemptsStarted : Nat
deriving DecidableEq, Repr

/-- One rag.js `connectToDatabase` call running to its first suspension
(lines 8-23): a cached handle is returned, otherwise a connection attempt
is started unconditionally — there is no in-flight promise check. -/
def issueSimple (s : SimpleCache) : SimpleCache × CallWait :=
  match s.cachedDb with
  | some d => (s, CallWait.cached d)
  | none =>
    ({ s with attemptsStarted := s.attemptsStarted + 1 },
     CallWait.initiator s.attemptsStarted)

/-- N rag.js calls issued back to back before any outcome arrives. -/
def issueSimpleN : Nat → SimpleCache → SimpleCache × List CallWait
  | 0, s => (s, [])
  | n + 1, s =>
    ((issueSimpleN n (issueSimple s).1).1,
     (issueSimple s).2 :: (issueSimpleN n (issueSimple s).1).2)

/-! ## Upstream request construction (claim C8), from
src/netlify/functions/api-proxy.js lines 81-124. -/

/-- The caller's chat-completion request body; `M` is the opaque type of
the messages array and `V` the opaque type of numeric sampling values,
relayed untouched. `none` models an absent (or null) field. -/
structure ReqBody (M V : Type) where
  model : Option String
  messages : Option M
  maxTokens : Option Nat
  temperature : Option V
  topP : Option V
  n : Option V
  stream : Option Bool
  stop : Option V
  presencePenalty : Option V
  frequencyPenalty : Option V

/-- The cleaned parameter object transmitted upstream; absent optional
fields stay absent (null/undefined entries are removed before
transmission), model and max_tokens are always present. -/
structure SentParams (M V : Type) where
  model : String
  messages : Option M
  maxTokens : Nat
  temperature : Option V
  topP : Option V
  n : Option V
  stream : Option Bool
  stop : Option V
  presencePenalty : Option V
  frequencyPenalty : Option V

/-- src/netlify/functions/api-proxy.js lines 81-124: the model name is
always replaced by the fixed "deepseek-chat", max_tokens is validated
(default 4096, clamp into [1, 8192]), the whitelisted fields are copied
verbatim, and null/undefined values are dropped. -/
def buildParams {M V : Type} (r : ReqBody M V) : SentParams M V :=
  { model := "deepseek-chat"
    messages := r.messages
    maxTokens := validatedFns r.maxTokens
    temperature := r.temperature
    topP := r.topP
    n := r.n
    stream := r.stream
    stop := r.stop
    presencePenalty := r.presencePenalty
    frequencyPenalty := r.frequencyPenalty }

/-- A concrete caller request asking for a different model. -/
def sampleReq : ReqBody Unit Unit :=
  { model := some "gpt-4", messages := some (), maxTokens := some 100,
    temperature := none, topP := none, n := none, stream := none,
    stop := none, presencePenalty := none, frequencyPenalty := none }

/-- src/unnamed/part_004 lines 91-126: the model name is always replaced
by the fixed "deepseek-chat"; max_tokens is set to 4096 when falsy
(`if (!requestBody.max_tokens) requestBody.max_tokens = 4096`) but is
transmitted WITHOUT any clamp; the same whitelisted fields are copied
verbatim and null/undefined values are dropped. -/
def buildParamsPart004 {M V : Type} (r : ReqBody M V) : SentParams M V :=
  { model := "deepseek-chat"
    messages := r.messages
    maxTokens := jsOrNat r.maxTokens
    temperature := r.temperature
    topP := r.topP
    n := r.n
    stream := r.stream
    stop := r.stop
    presencePenalty := r.presencePenalty
    frequencyPenalty := r.frequencyPenalty }

/-- The parameter object the edge variant transmits
(src/netlify/edge-functions/api-proxy.js lines 88-95): it has no n, stop,
presence_penalty or frequency_penalty entries at all, and stream is an
unconditional boolean. -/
structure SentParamsEdge (M V : Type) where
  model : String
  messages : Option M
  maxTokens : Nat
  temperature : Option V
  topP : Option V
  stream : Bool

/-- src/netlify/edge-functions/api-proxy.js lines 74-102: the model name
is always replaced by the fixed "deepseek-chat"; max_tokens is
`requestBody.max_tokens || 4096` then clamped; only messages, temperature
and top_p are relayed from the caller (n, stop, presence_penalty and
frequency_penalty are omitted from cleanedParams), stream is forced to
false, and null/undefined values are dropped. -/
def buildParamsEdge {M V : Type} (r : ReqBody M V) : SentParamsEdge M V :=
  { model := "deepseek-chat"
    messages := r.messages
    maxTokens := validatedEdge r.maxTokens
    temperature := r.temperature
    topP := r.topP
    stream := false }

/-- A concrete caller request with an over-ceiling max_tokens, streaming
requested, and every optional sampling field present. -/
def sampleReqBig : ReqBody Unit Unit :=
  { model := some "gpt-4", messages := some (), maxTokens := some 9000,
    temperature := some (), topP := some (), n := some (),
    stream := some true, stop := some (), presencePenalty := some (),
    frequencyPenalty := some () }

/-! # Theorems -/

/-! ## Streaming relay lemmas -/

theorem splitLines_no_nl (s : List Char) (h : '\n' ∉ s) : splitLines s = ([], s) := by
  induction s with
  | nil => rfl
  | cons c cs ih =>
    simp only [List.mem_cons, not_or] at h
    rw [splitLines, if_neg (fun hcc => h.1 hcc.symm), ih h.2]

theorem splitLines_snd_no_nl (s : List Char) : '\n' ∉ (splitLines s).2 := by
  induction s with
  | nil => simp [splitLines]
  | cons c cs ih =>
    by_cases hc : c = '\n'
    · rw [splitLines, if_pos hc]; exact ih
    · rw [splitLines, if_neg hc]
      rcases hsp : splitLines cs with ⟨ls, r⟩
      rw [hsp] at ih
      cases ls with
      | nil =>
        intro hm
        rcases List.mem_cons.mp hm with h1 | h2
        · exact hc h1.symm
        · exact ih h2
      | cons l ls => exact ih

theorem splitLines_append (a b : List Char) :
    splitLines (a ++ b) =
      ((splitLines a).1 ++ (splitLines ((splitLines a).2 ++ b)).1,
       (splitLines ((splitLines a).2 ++ b)).2) := by
  induction a with
  | nil => simp [splitLines]
  | cons c a ih =>
    by_cases hc : c = '\n'
    · rw [List.cons_append, splitLines, if_pos hc, ih, splitLines, if_pos hc]
      simp
    · rw [List.cons_append, splitLines, if_neg hc, ih, splitLines, if_neg hc]
      rcases hA : splitLines a with ⟨A1, A2⟩
      cases A1 with
      | cons l ls => simp
      | nil =>
        rw [List.cons_append, splitLines, if_neg hc]
        rcases hM : splitLines (A2 ++ b) with ⟨M1, M2⟩
        cases M1 with
        | nil => simp
        | cons m ms => simp

theorem lineEvents_append (xs ys : List (List Char)) :
    lineEvents (xs ++ ys) = lineEvents xs ++ lineEvents ys := by
  simp [lineEvents]

theorem relayChunks_eq (chunks : List (List Char)) :
    ∀ buf : List Char, '\n' ∉ buf →
      relayChunks buf chunks = lineEvents (splitLines (buf ++ chunks.flatten)).1 := by
  induction chunks with
  | nil =>
    intro buf hb
    simp [relayChunks, splitLines_no_nl buf hb, lineEvents]
  | cons c cs ih =>
    intro buf hb
    rw [relayChunks, ih _ (splitLines_snd_no_nl (buf ++ c)), List.flatten_cons,
        ← List.append_assoc, splitLines_append (buf ++ c) cs.flatten,
        lineEvents_append]

theorem relayOutput_eq (chunks : List (List Char)) :
    relayOutput chunks = lineEvents (splitLines chunks.flatten).1 ++ [Ev.done] := by
  rw [relayOutput, relayChunks_eq chunks [] (by simp)]
  simp

theorem isPrefixOf_exists (p l : List Char) (h : p.isPrefixOf l = true) :
    ∃ t, l = p ++ t := by
  induction p generalizing l with
  | nil => exact ⟨l, rfl⟩
  | cons x xs ih =>
    cases l with
    | nil => simp [List.isPrefixOf] at h
    | cons y ys =>
      simp only [List.isPrefixOf, Bool.and_eq_true, beq_iff_eq] at h
      rcases ih ys h.2 with ⟨t, rfl⟩
      exact ⟨t, by rw [h.1]; rfl⟩

/-! ## Claim C4 -/

/-- C4 (amended): for every upstream byte stream and every way of
splitting it into chunks, the relay writes the identical ordered sequence
of forwarded events — data events, with each [DONE] sentinel line
translated in place into a done:true event — followed by exactly one
final done:true event appended after the upstream ends; the written
sequence depends only on the concatenated stream, not on the chunk
boundaries. -/
theorem c4_streaming_relay_amended (chunks chunks' : List (List Char))
    (h : chunks.flatten = chunks'.flatten) :
    relayOutput chunks = relayOutput chunks'
    ∧ relayOutput chunks = lineEvents (splitLines chunks.flatten).1 ++ [Ev.done]
    ∧ (∃ pre, relayOutput chunks = pre ++ [Ev.done]) := by
  refine ⟨?_, relayOutput_eq chunks, ⟨relayChunks [] chunks, rfl⟩⟩
  rw [relayOutput_eq, relayOutput_eq, h]

/-- Witness for C4 (amended): a chunk boundary splitting an SSE line in
half produces the same written sequence as the unsplit stream. -/
theorem c4_streaming_relay_witness :
    (["data: x\nda".toList, "ta: y\n".toList] : List (List Char)).flatten
        = (["data: x\ndata: y\n".toList] : List (List Char)).flatten
    ∧ relayOutput ["data: x\nda".toList, "ta: y\n".toList]
        = relayOutput ["data: x\ndata: y\n".toList] :=
  ⟨by decide, (c4_streaming_relay_amended _ _ (by decide)).1⟩

/-- Counterexample to C4 as stated: on the upstream stream consisting of
the single line "data: [DONE]" the relay writes two done:true events (the
sentinel translation and the unconditional final one), so the written
sequence is not a sequence of data events followed by exactly one
done:true event. -/
theorem c4_streaming_relay_counterexample :
    relayOutput ["data: [DONE]\n".toList] = [Ev.done, Ev.done]
    ∧ ¬ ∃ ds : List Ev, (∀ e ∈ ds, ∃ p, e = Ev.data p)
        ∧ relayOutput ["data: [DONE]\n".toList] = ds ++ [Ev.done] := by
  refine ⟨by decide, ?_⟩
  rintro ⟨ds, hall, heq⟩
  rw [show relayOutput ["data: [DONE]\n".toList] = [Ev.done, Ev.done] from by decide]
    at heq
  rcases ds with _ | ⟨d, ds⟩
  · simp at heq
  · rcases ds with _ | ⟨d2, ds⟩
    · simp at heq
      rcases hall d (by simp) with ⟨p, hp⟩
      rw [← heq] at hp
      cases hp
    · simp at heq

/-! ## Claim C10 -/

/-- C10: every frame the streaming relay writes to its sink is a done
frame, an error frame, or a data frame whose payload is the verbatim
payload of a complete upstream line that began with the "data: " tag;
lines without that tag are never forwarded. -/
theorem c10_sink_frame_shapes (ok : Bool) (msg : List Char)
    (chunks : List (List Char)) :
    ∀ e ∈ streamingSink ok msg chunks,
      e = Ev.done ∨ (∃ m, e = Ev.error m) ∨
      (∃ p, e = Ev.data p ∧ p ≠ doneMark ∧
        (dataMark ++ p) ∈ (splitLines chunks.flatten).1) := by
  intro e he
  cases ok with
  | false =>
    simp [streamingSink] at he
    exact Or.inr (Or.inl ⟨msg, he⟩)
  | true =>
    rw [streamingSink, if_pos rfl, relayOutput_eq] at he
    rcases List.mem_append.mp he with hm | hm
    · rw [lineEvents] at hm
      rcases List.mem_flatten.mp hm with ⟨evs, hevs, hein⟩
      rcases List.mem_map.mp hevs with ⟨line, hline, rfl⟩
      rw [lineEvent] at hein
      by_cases hp : dataMark.isPrefixOf line
      · rw [if_pos hp] at hein
        by_cases hd : line.drop 6 = doneMark
        · rw [if_pos hd] at hein
          simp at hein
          exact Or.inl hein
        · rw [if_neg hd] at hein
          simp at hein
          subst hein
          refine Or.inr (Or.inr ⟨line.drop 6, rfl, hd, ?_⟩)
          rcases isPrefixOf_exists _ _ hp with ⟨t, rfl⟩
          rw [show (dataMark ++ t).drop 6 = t from rfl]
          exact hline
      · rw [if_neg hp] at hein
        simp at hein
    · simp at hm
      exact Or.inl hm

/-- Witness for C10 at a concrete stream: the forwarded frame for the
line "data: hi" satisfies the frame-shape invariant. -/
theorem c10_sink_frame_shapes_witness :
    Ev.data "hi".toList = Ev.done ∨ (∃ m, Ev.data "hi".toList = Ev.error m) ∨
    (∃ p, Ev.data "hi".toList = Ev.data p ∧ p ≠ doneMark ∧
      (dataMark ++ p) ∈ (splitLines (["data: hi\n".toList] : List (List Char)).flatten).1) :=
  c10_sink_frame_shapes true [] ["data: hi\n".toList] (Ev.data "hi".toList) (by decide)

/-! ## Claim C3 -/

/-- C3: on upstream statuses [502, 502, 200] both retry-loop variants make
exactly 3 attempts, sleep the strictly increasing backoffs 4000 then 6000
milliseconds, and return the final 200 body; on [502, 502, 502, ...] they
make exactly 3 attempts (no 4th) and return an error with the transient
502 status; any first status that is not retryable ends the loop after
exactly 1 attempt with no backoff, and a non-success such status is
returned with the upstream status code unmodified. -/
theorem c3_resilient_proxy_retry :
    (retryLoop retryableFns (fun i => (up502x2then200 i).1) 0 3
        = (3, [4000, 6000], some 2))
    ∧ proxyHandler retryableFns up502x2then200 = (200, "final body")
    ∧ 4000 < 6000
    ∧ (retryLoop retryableFns (fun i => (up502always i).1) 0 3).1 = 3
    ∧ proxyHandler retryableFns up502always = (502, "upstream error body")
    ∧ (retryLoop retryable502 (fun i => (up502x2then200 i).1) 0 3
        = (3, [4000, 6000], some 2))
    ∧ proxyHandler retryable502 up502x2then200 = (200, "final body")
    ∧ (retryLoop retryable502 (fun i => (up502always i).1) 0 3).1 = 3
    ∧ proxyHandler retryable502 up502always = (502, "upstream error body")
    ∧ (∀ upstream : Nat → Nat × String, retryableFns (upstream 0).1 = false →
        retryLoop retryableFns (fun i => (upstream i).1) 0 3 = (1, [], some 0)
        ∧ (respSuccess (upstream 0).1 = false →
            proxyHandler retryableFns upstream = ((upstream 0).1, "upstream error body")))
    ∧ (∀ upstream : Nat → Nat × String, retryable502 (upstream 0).1 = false →
        retryLoop retryable502 (fun i => (upstream i).1) 0 3 = (1, [], some 0)
        ∧ (respSuccess (upstream 0).1 = false →
            proxyHandler retryable502 upstream = ((upstream 0).1, "upstream error body"))) := by
  refine ⟨by decide, by decide, by decide, by decide, by decide, by decide,
          by decide, by decide, by decide, ?_, ?_⟩
  · intro up h
    have hloop : retryLoop retryableFns (fun i => (up i).1) 0 3 = (1, [], some 0) := by
      show retryLoop retryableFns (fun i => (up i).1) 0 (2 + 1) = (1, [], some 0)
      rw [retryLoop, if_neg (by simp [h])]
    refine ⟨hloop, fun hns => ?_⟩
    rw [proxyHandler, hloop]
    simp [hns]
  · intro up h
    have hloop : retryLoop retryable502 (fun i => (up i).1) 0 3 = (1, [], some 0) := by
      show retryLoop retryable502 (fun i => (up i).1) 0 (2 + 1) = (1, [], some 0)
      rw [retryLoop, if_neg (by simp [h])]
    refine ⟨hloop, fun hns => ?_⟩
    rw [proxyHandler, hloop]
    simp [hns]

/-- Witness for C3 at the concrete non-retryable status 404: exactly one
attempt, status returned unmodified. -/
theorem c3_resilient_proxy_retry_witness :
    retryableFns 404 = false ∧ respSuccess 404 = false
    ∧ proxyHandler retryableFns (fun _ => (404, "not found"))
        = (404, "upstream error body") := by
  refine ⟨by decide, by decide, ?_⟩
  have h := c3_resilient_proxy_retry
  exact (h.2.2.2.2.2.2.2.2.2.1 (fun _ => (404, "not found")) (by decide)).2 (by decide)

/-! ## Claim C5 -/

/-- C5 (amended): in the buffered netlify functions proxy an input of 0
clamps to 1; in the streaming and edge variants an input of 0 is falsy,
treated as unset, and replaced by the 4096 default; in all three variants
an input above the 8192 ceiling clamps to 8192 and a provided value in
the valid range 1..8192 passes through unchanged. -/
theorem c5_max_tokens_amended :
    validatedFns (some 0) = 1
    ∧ validatedStream (some 0) = 4096
    ∧ validatedEdge (some 0) = 4096
    ∧ (∀ t, 8192 < t →
        validatedFns (some t) = 8192 ∧ validatedStream (some t) = 8192
        ∧ validatedEdge (some t) = 8192)
    ∧ (∀ t, 1 ≤ t → t ≤ 8192 →
        validatedFns (some t) = t ∧ validatedStream (some t) = t
        ∧ validatedEdge (some t) = t) := by
  refine ⟨by decide, by decide, by decide, ?_, ?_⟩
  · intro t ht
    have h1 : clampTokens t = 8192 := by
      rw [clampTokens]; omega
    have h2 : jsOrNat (some t) = t := by
      cases t with
      | zero => omega
      | succ n => rfl
    exact ⟨by rw [validatedFns, h1], by rw [validatedStream, h2, h1],
           by rw [validatedEdge, h2, h1]⟩
  · intro t h1t ht
    have h1 : clampTokens t = t := by
      rw [clampTokens]; omega
    have h2 : jsOrNat (some t) = t := by
      cases t with
      | zero => omega
      | succ n => rfl
    exact ⟨by rw [validatedFns, h1], by rw [validatedStream, h2, h1],
           by rw [validatedEdge, h2, h1]⟩

/-- Counterexample to C5 as stated: in the streaming and edge variants an
input of 0 yields 4096 (the JavaScript default for a falsy value), not
the claimed clamp to 1. -/
theorem c5_max_tokens_counterexample :
    validatedStream (some 0) = 4096 ∧ validatedEdge (some 0) = 4096
    ∧ (4096 : Nat) ≠ 1 := by decide

/-- Witness for C5 (amended) at the ceiling and at an in-range value. -/
theorem c5_max_tokens_witness :
    8192 < 9000 ∧ validatedFns (some 9000) = 8192
    ∧ 1 ≤ 42 ∧ 42 ≤ 8192 ∧ validatedStream (some 42) = 42 := by
  have h := c5_max_tokens_amended
  exact ⟨by decide, (h.2.2.2.1 9000 (by decide)).1, by decide, by decide,
         (h.2.2.2.2 42 (by decide) (by decide)).2.1⟩

/-! ## Claim C6 -/

/-- C6 (amended): the handlers that resolve their credential solely from
the environment respond with a 500 configuration error and make no
upstream call when the credential is absent or empty; the part_004
handler instead substitutes its hardcoded API key when the environment
variables are absent and proceeds to call upstream. -/
theorem c6_missing_credentials_amended :
    (∀ a b, falsyS a = true → falsyS b = true →
      startFns a b = ProxyStart.configError 500
      ∧ upstreamCalled (startFns a b) = false)
    ∧ (∀ k, falsyS k = true →
      startStream k = ProxyStart.configError 500
      ∧ upstreamCalled (startStream k) = false)
    ∧ startPart004 none none
        = ProxyStart.proceeds "sk-fbbeed48dde046d5812669b237080836"
    ∧ upstreamCalled (startPart004 none none) = true := by
  refine ⟨?_, ?_, by decide, by decide⟩
  · intro a b ha hb
    rcases a with _ | s
    · rcases b with _ | t
      · exact ⟨rfl, rfl⟩
      · have ht : t = "" := by simpa [falsyS] using hb
        subst ht
        exact ⟨by decide, by decide⟩
    · have hs : s = "" := by simpa [falsyS] using ha
      subst hs
      rcases b with _ | t
      · exact ⟨by decide, by decide⟩
      · have ht : t = "" := by simpa [falsyS] using hb
        subst ht
        exact ⟨by decide, by decide⟩
  · intro k hk
    rcases k with _ | s
    · exact ⟨rfl, rfl⟩
    · have hs : s = "" := by simpa [falsyS] using hk
      subst hs
      exact ⟨by decide, by decide⟩

/-- Counterexample to C6 as stated: with both environment variables
absent, the part_004 handler proceeds to call upstream with the hardcoded
key instead of responding with a 500 configuration error. -/
theorem c6_missing_credentials_counterexample :
    upstreamCalled (startPart004 none none) = true
    ∧ startPart004 none none ≠ ProxyStart.configError 500 := by decide

/-- Witness for C6 (amended) at absent and empty credentials. -/
theorem c6_missing_credentials_witness :
    falsyS none = true
    ∧ startFns none none = ProxyStart.configError 500
    ∧ upstreamCalled (startStream (some "")) = false := by
  have h := c6_missing_credentials_amended
  exact ⟨by decide, (h.1 none none (by decide) (by decide)).1,
         (h.2.1 (some "") (by decide)).2⟩

/-! ## Claim C8 -/

/-- C8 (amended): all three cited proxies replace the caller's model
field by the fixed identifier deepseek-chat; the rest of the transmitted
spec equals the caller's spec only up to per-variant normalization with
null/undefined fields dropped. In the netlify functions variant,
max_tokens is defaulted to 4096 when unset and clamped into [1, 8192],
and messages, temperature, top_p, n, stream, stop, presence_penalty and
frequency_penalty are sent verbatim. In the part_004 variant, max_tokens
is defaulted to 4096 when falsy but transmitted without clamping, and the
same other fields are sent verbatim. In the edge variant, max_tokens is
defaulted (0 treated as unset) and clamped, stream is forced to false,
only messages, temperature and top_p are relayed verbatim, and n, stop,
presence_penalty and frequency_penalty are dropped. -/
theorem c8_upstream_spec_amended {M V : Type} (r : ReqBody M V) :
    ((buildParams r).model = "deepseek-chat"
    ∧ (buildParams r).messages = r.messages
    ∧ (buildParams r).maxTokens = validatedFns r.maxTokens
    ∧ (buildParams r).temperature = r.temperature
    ∧ (buildParams r).topP = r.topP
    ∧ (buildParams r).n = r.n
    ∧ (buildParams r).stream = r.stream
    ∧ (buildParams r).stop = r.stop
    ∧ (buildParams r).presencePenalty = r.presencePenalty
    ∧ (buildParams r).frequencyPenalty = r.frequencyPenalty)
    ∧ ((buildParamsPart004 r).model = "deepseek-chat"
    ∧ (buildParamsPart004 r).messages = r.messages
    ∧ (buildParamsPart004 r).maxTokens = jsOrNat r.maxTokens
    ∧ (buildParamsPart004 r).temperature = r.temperature
    ∧ (buildParamsPart004 r).topP = r.topP
    ∧ (buildParamsPart004 r).n = r.n
    ∧ (buildParamsPart004 r).stream = r.stream
    ∧ (buildParamsPart004 r).stop = r.stop
    ∧ (buildParamsPart004 r).presencePenalty = r.presencePenalty
    ∧ (buildParamsPart004 r).frequencyPenalty = r.frequencyPenalty)
    ∧ ((buildParamsEdge r).model = "deepseek-chat"
    ∧ (buildParamsEdge r).messages = r.messages
    ∧ (buildParamsEdge r).maxTokens = validatedEdge r.maxTokens
    ∧ (buildParamsEdge r).temperature = r.temperature
    ∧ (buildParamsEdge r).topP = r.topP
    ∧ (buildParamsEdge r).stream = false) :=
  ⟨⟨rfl, rfl, rfl, rfl, rfl, rfl, rfl, rfl, rfl, rfl⟩,
   ⟨rfl, rfl, rfl, rfl, rfl, rfl, rfl, rfl, rfl, rfl⟩,
   ⟨rfl, rfl, rfl, rfl, rfl, rfl⟩⟩

/-- Counterexample to C8 as stated: a caller requesting model gpt-4 has
its model field replaced by deepseek-chat, not sent verbatim; a caller
requesting stream true has the edge variant transmit stream false, a
mutation beyond the claimed normalization; and the part_004 variant
transmits a max_tokens of 9000 unclamped, above the clamp ceiling 8192
that the claim names. -/
theorem c8_upstream_spec_counterexample :
    sampleReq.model = some "gpt-4"
    ∧ (buildParams sampleReq).model = "deepseek-chat"
    ∧ ("deepseek-chat" : String) ≠ "gpt-4"
    ∧ sampleReqBig.stream = some true
    ∧ (buildParamsEdge sampleReqBig).stream = false
    ∧ (false : Bool) ≠ true
    ∧ sampleReqBig.maxTokens = some 9000
    ∧ (buildParamsPart004 sampleReqBig).maxTokens = 9000
    ∧ clampTokens 9000 = 8192
    ∧ (9000 : Nat) ≠ 8192 :=
  ⟨rfl, rfl, by decide, rfl, rfl, by decide, rfl, rfl, by decide, by decide⟩

/-! ## Claim C9 -/

theorem truncResp_length (od : Option (List Char)) : (truncResp od).length ≤ 203 := by
  rcases od with _ | r
  · simp [truncResp]
  · rw [truncResp]
    split
    · simp
    · rw [List.length_append, List.length_take]
      split
      · simp [ellipsisMark]
      · simp

/-- C9: for a successful RAG run whose store honors the requested k=5
(at most 5 documents returned), the sources array is exactly the
per-document mapping of the store's results in the store's returned
order (no client-side reordering), has length at most 5, every response
field has length at most 203, and a document's response is returned whole
when at most 200 characters and otherwise as its exact 200-character
prefix followed by the three-character ellipsis marker. -/
theorem c9_sources_shape (query : String) (o : RagOracle) (hq : ¬ query = "")
    (he : o.embedOk = true) (hc : o.connectOk = true) (hs : o.searchOk = true)
    (hl : o.llmOk = true) (hk : o.docs.length ≤ 5) :
    (ragHandler query o).1.sources = o.docs.map mkSource
    ∧ (ragHandler query o).1.sources.length ≤ 5
    ∧ (∀ s ∈ (ragHandler query o).1.sources, s.response.length ≤ 203)
    ∧ (∀ d ∈ o.docs, ∀ rt, d.response = some rt →
        (rt.length ≤ 200 → truncResp d.response = rt)
        ∧ (200 < rt.length →
            truncResp d.response = rt.take 200 ++ ellipsisMark
            ∧ rt = rt.take 200 ++ rt.drop 200)) := by
  have hsrc : (ragHandler query o).1.sources = o.docs.map mkSource := by
    simp [ragHandler, hq, he, hc, hs, hl]
  refine ⟨hsrc, ?_, ?_, ?_⟩
  · rw [hsrc, List.length_map]
    exact hk
  · intro s hsmem
    rw [hsrc] at hsmem
    rcases List.mem_map.mp hsmem with ⟨d, _, rfl⟩
    exact truncResp_length d.response
  · intro d _ rt hrt
    constructor
    · intro hle
      rw [hrt, truncResp]
      split
      · simp_all
      · rw [if_neg (by omega)]
        simp [List.take_of_length_le hle]
    · intro hgt
      rw [hrt, truncResp]
      split
      · simp_all
      · exact ⟨rfl, (List.take_append_drop 200 rt).symm⟩

/-- Witness for C9 at a concrete successful run with one document. -/
theorem c9_sources_shape_witness :
    ¬ ("What is the capital of France?" : String) = ""
    ∧ okOracle.docs.length ≤ 5
    ∧ (ragHandler "What is the capital of France?" okOracle).1.sources
        = okOracle.docs.map mkSource := by
  have h := c9_sources_shape "What is the capital of France?" okOracle
    (by decide) rfl rfl rfl rfl (by decide)
  exact ⟨by decide, by decide, h.1⟩

/-! ## Claim C2 -/

/-- C2: for a request with a valid query and credentials, an embedding
failure yields an HTTP 200 response with fallback=true, empty sources and
an answer containing the literal query text, and the generation stage is
never called; a generation failure after successful retrieval yields an
HTTP 200 response with fallback=true that preserves the sources already
retrieved. -/
theorem c2_rag_fallbacks (query : String) (o : RagOracle) (hq : ¬ query = "") :
    (o.embedOk = false →
      (ragHandler query o).1.status = 200
      ∧ (ragHandler query o).1.fallback = true
      ∧ (ragHandler query o).1.sources = []
      ∧ (∃ a b, (ragHandler query o).1.answer = a ++ query ++ b)
      ∧ StageEvent.llmCall ∉ (ragHandler query o).2)
    ∧ (o.embedOk = true → o.connectOk = true → o.searchOk = true →
       o.llmOk = false →
      (ragHandler query o).1.status = 200
      ∧ (ragHandler query o).1.fallback = true
      ∧ (ragHandler query o).1.sources = o.docs.map mkSource) := by
  constructor
  · intro he
    refine ⟨by simp [ragHandler, hq, he], by simp [ragHandler, hq, he],
            by simp [ragHandler, hq, he], ?_, by simp [ragHandler, hq, he]⟩
    have hans : (ragHandler query o).1.answer = fallbackAnswer query := by
      simp [ragHandler, hq, he]
    rw [hans, fallbackAnswer]
    exact ⟨_, _, rfl⟩
  · intro he hc hs hl
    exact ⟨by simp [ragHandler, hq, he, hc, hs, hl],
           by simp [ragHandler, hq, he, hc, hs, hl],
           by simp [ragHandler, hq, he, hc, hs, hl]⟩

/-- Witness for C2 at a concrete embedding failure. -/
theorem c2_rag_fallbacks_witness :
    ¬ ("q" : String) = ""
    ∧ ({ okOracle with embedOk := false } : RagOracle).embedOk = false
    ∧ (ragHandler "q" { okOracle with embedOk := false }).1.fallback = true
    ∧ (ragHandler "q" { okOracle with embedOk := false }).1.sources = []
    ∧ StageEvent.llmCall ∉ (ragHandler "q" { okOracle with embedOk := false }).2 := by
  have h := (c2_rag_fallbacks "q" { okOracle with embedOk := false }
    (by decide)).1 rfl
  exact ⟨by decide, rfl, h.2.1, h.2.2.1, h.2.2.2.2⟩

/-! ## Claim C7 -/

/-- C7 (amended): within one part_000 request the stages are strictly
sequential in the order store connection attempt, then embedding, then
(only when the connection succeeded) retrieval, then generation; the
store connection attempt — under its own 5 second timeout — happens
before the embedding is obtained, and retrieval and generation never
precede the embedding. -/
theorem c7_stage_order_amended (query : String) (o : RagOracle)
    (hq : ¬ query = "") :
    (∃ rest, (ragHandler query o).2
        = StageEvent.connAttempt :: StageEvent.embedCall :: rest
      ∧ List.Sublist rest [StageEvent.searchCall, StageEvent.llmCall])
    ∧ (o.embedOk = false →
        (ragHandler query o).2 = [StageEvent.connAttempt, StageEvent.embedCall])
    ∧ (o.embedOk = true → o.connectOk = false →
        (ragHandler query o).2
          = [StageEvent.connAttempt, StageEvent.embedCall, StageEvent.llmCall])
    ∧ (o.embedOk = true → o.connectOk = true →
        (ragHandler query o).2
          = [StageEvent.connAttempt, StageEvent.embedCall,
             StageEvent.searchCall, StageEvent.llmCall]) := by
  cases he : o.embedOk with
  | false =>
    have ht : (ragHandler query o).2
        = [StageEvent.connAttempt, StageEvent.embedCall] := by
      simp [ragHandler, hq, he]
    exact ⟨⟨[], by rw [ht], by decide⟩, fun _ => ht,
           fun h _ => Bool.noConfusion h,
           fun h _ => Bool.noConfusion h⟩
  | true =>
    cases hc : o.connectOk with
    | false =>
      have ht : (ragHandler query o).2
          = [StageEvent.connAttempt, StageEvent.embedCall, StageEvent.llmCall] := by
        cases hl : o.llmOk <;> simp [ragHandler, hq, he, hc, hl]
      exact ⟨⟨[StageEvent.llmCall], by rw [ht], by decide⟩,
             fun h => Bool.noConfusion h, fun _ _ => ht,
             fun _ h => Bool.noConfusion h⟩
    | true =>
      have ht : (ragHandler query o).2
          = [StageEvent.connAttempt, StageEvent.embedCall,
             StageEvent.searchCall, StageEvent.llmCall] := by
        cases hs : o.searchOk <;> cases hl : o.llmOk <;>
          simp [ragHandler, hq, he, hc, hs, hl]
      exact ⟨⟨[StageEvent.searchCall, StageEvent.llmCall], by rw [ht], by decide⟩,
             fun h => Bool.noConfusion h,
             fun _ h => Bool.noConfusion h, fun _ _ => ht⟩

/-- Counterexample to C7 as stated: on a fully successful run the store
connection attempt (Step 1 of part_000) occurs strictly before the
embedding call (Step 2), so store connection work happens before the
embedding has been obtained. -/
theorem c7_stage_order_counterexample :
    (ragHandler "q" okOracle).2
      = [StageEvent.connAttempt, StageEvent.embedCall,
         StageEvent.searchCall, StageEvent.llmCall]
    ∧ StageEvent.connAttempt ∈
        ((ragHandler "q" okOracle).2.takeWhile
          (fun e => e ≠ StageEvent.embedCall)) := by
  decide

/-- Witness for C7 (amended) at a concrete successful run. -/
theorem c7_stage_order_amended_witness :
    ¬ ("q" : String) = ""
    ∧ ∃ rest, (ragHandler "q" okOracle).2
        = StageEvent.connAttempt :: StageEvent.embedCall :: rest
      ∧ List.Sublist rest [StageEvent.searchCall, StageEvent.llmCall] :=
  ⟨by decide, (c7_stage_order_amended "q" okOracle (by decide)).1⟩

/-! ## Claim C1 -/

theorem issuePooledN_waiters (m : Nat) : ∀ (s : PoolState) (p : Nat),
    s.connectionPromise = some p →
    issuePooledN m s = (s, List.replicate m (CallWait.waiterOn p)) := by
  induction m with
  | zero => intro s p hp; rfl
  | succ m ih =>
    intro s p hp
    have h1 : issuePooled s = (s, CallWait.waiterOn p) := by
      rw [issuePooled, hp]
    simp only [issuePooledN, h1, ih s p hp, List.replicate_succ]

theorem issuePooledN_init (n : Nat) (hn : 1 ≤ n) :
    issuePooledN n initPool
      = (⟨some 0, none, none, 1⟩,
         CallWait.initiator 0 :: List.replicate (n - 1) (CallWait.waiterOn 0)) := by
  rcases n with _ | m
  · omega
  · have h1 : issuePooled initPool
        = (⟨some 0, none, none, 1⟩, CallWait.initiator 0) := rfl
    simp only [issuePooledN, h1, Nat.add_sub_cancel,
      issuePooledN_waiters m ⟨some 0, none, none, 1⟩ 0 rfl]

theorem failWaiters_rep_snd (k : Nat) : ∀ s : PoolState,
    (failWaiters s (List.replicate k (CallWait.waiterOn 0))).2
      = (List.range' s.attemptsStarted k).map CallResult.retrying := by
  induction k with
  | zero => intro s; rfl
  | succ k ih =>
    intro s
    simp only [List.replicate_succ, failWaiters, ih]
    rfl

theorem failWaiters_rep_fst (k : Nat) : ∀ s : PoolState,
    (failWaiters s (List.replicate k (CallWait.waiterOn 0))).1.attemptsStarted
      = s.attemptsStarted + k := by
  induction k with
  | zero => intro s; rfl
  | succ k ih =>
    intro s
    simp only [List.replicate_succ, failWaiters, ih]
    show (recoverWaiter s).1.attemptsStarted + k = s.attemptsStarted + (k + 1)
    rw [show (recoverWaiter s).1.attemptsStarted = s.attemptsStarted + 1 from rfl]
    omega

/-- C1 (amended): in the promise-deduplicating part_000 variant, N
concurrent connectToDatabase calls issued before any resolves start
exactly one underlying connection attempt, and on success all N calls
resolve to the same handle; if the attempt fails, the call that initiated
it observes the error, while each waiting call — rather than observing
the error — resets the cache and silently starts its own fresh connection
attempt (N attempts in total), and after a failure the cache is reset so
that a subsequent call starts a fresh attempt. In the rag.js variant
concurrent calls are not deduplicated at all (see the counterexample). -/
theorem c1_connection_cache_amended (n : Nat) (hn : 1 ≤ n) :
    (issuePooledN n initPool).1.attemptsStarted = 1
    ∧ (∀ h : Nat, (issuePooledN n initPool).2.map (resultOnSuccess h)
        = List.replicate n (CallResult.handle h))
    ∧ (deliverFailure (issuePooledN n initPool).1 (issuePooledN n initPool).2).2
        = CallResult.error :: (List.range' 1 (n - 1)).map CallResult.retrying
    ∧ (deliverFailure (issuePooledN n initPool).1
        (issuePooledN n initPool).2).1.attemptsStarted = n
    ∧ (issuePooled (deliverFailure (issuePooledN 1 initPool).1
        (issuePooledN 1 initPool).2).1).2 = CallWait.initiator 1 := by
  have hinit := issuePooledN_init n hn
  refine ⟨?_, ?_, ?_, ?_, by decide⟩
  · rw [hinit]
  · intro h
    rw [hinit]
    rw [List.map_cons, List.map_replicate]
    show CallResult.handle h :: List.replicate (n - 1) (CallResult.handle h)
        = List.replicate n (CallResult.handle h)
    rw [← List.replicate_succ]
    congr 1
    omega
  · rw [hinit, deliverFailure]
    simp only [failWaiters, failWaiters_rep_snd]
  · rw [hinit, deliverFailure]
    simp only [failWaiters, failWaiters_rep_fst]
    show 1 + (n - 1) = n
    omega

/-- Counterexample to C1 as stated: in the rag.js connectToDatabase
variant, two concurrent calls issued before any resolves each start their
own underlying connection attempt — two attempts, not exactly one. -/
theorem c1_connection_cache_counterexample :
    (issueSimpleN 2 ⟨none, 0⟩).1.attemptsStarted = 2
    ∧ (issueSimpleN 2 ⟨none, 0⟩).2
        = [CallWait.initiator 0, CallWait.initiator 1]
    ∧ (2 : Nat) ≠ 1 := by decide

/-- Witness for C1 (amended) at three concurrent calls. -/
theorem c1_connection_cache_witness :
    1 ≤ 3
    ∧ (issuePooledN 3 initPool).1.attemptsStarted = 1
    ∧ (deliverFailure (issuePooledN 3 initPool).1
        (issuePooledN 3 initPool).2).1.attemptsStarted = 3 := by
  have h := c1_connection_cache_amended 3 (by decide)
  exact ⟨by decide, h.1, h.2.2.2.1⟩
